import Mathlib

/-!
# Verification of the V4 Bayesian recipe-search core (`src/app.py`)

Shallow embedding of the black-box optimization core of `app.py`:
the prediction adapter `get_pig_prediction_v3` (lines 28-60), the search
space `space` (lines 66-75), the objective `objective_function`
(lines 78-99) and the entry point `find_best_recipe_v4_bayesian`
(lines 102-132), together with the UI's target-profile construction
`user_targets` (lines 155-158).

Machine reals are modelled as `ℚ`.  The pre-trained regression model
`multi_pig_model_v3` (an external `.pkl` artifact) is an abstract
parameter: a pure function from the ordered input row to 6 outputs.
The sequential model-based optimizer `gp_minimize` comes from the
external `skopt` library, not from this repository; it is modelled from
the spec (see its doc comment below).
-/

/-- The external regression model `multi_pig_model_v3` (app.py line 23):
a pure function from the ordered 9-column input row to the 6 predicted
outputs.  Abstract parameter of the development. -/
def Model : Type := List ℚ → Fin 6 → ℚ

/-- The output dictionary of `get_pig_prediction_v3` (app.py lines 52-59):
the 6 named predicted scores. -/
structure Outcome where
  predicted_imf : ℚ
  predicted_sweetness : ℚ
  predicted_aroma : ℚ
  predicted_umami : ℚ
  predicted_fat_quality : ℚ
  predicted_ph_24h : ℚ
deriving DecidableEq, Repr

/-- A structured configuration: one value per dimension of `space`
(app.py lines 66-75), in declaration order. -/
structure Config where
  breed : String
  sweet_potato : ℚ
  oak : ℚ
  days : ℤ
  temperature : ℚ
  walk_distance : ℚ
  density : ℚ
  air_quality : ℚ
deriving DecidableEq, Repr

/-- The `input_data` dictionary of `get_pig_prediction_v3`
(app.py lines 32-38), as an association list in source order
(Python dicts preserve insertion order, and the order coincides with
`model_columns`). -/
def input_data (breed : String)
    (sweet_potato oak days temperature walk_distance density air_quality : ℚ) :
    List (String × ℚ) :=
  [("percent_sweet_potato", sweet_potato), ("percent_oak", oak), ("feed_days", days),
   ("temperature", temperature), ("walk_distance_km", walk_distance),
   ("stocking_density", density), ("air_quality", air_quality),
   ("breed_Kurobuta", if breed = "Kurobuta" then 1 else 0),
   ("breed_Iberian", if breed = "Iberian" then 1 else 0)]

/-- The fixed column layout `model_columns` handed to the oracle
(app.py lines 39-43). -/
def model_columns : List String :=
  ["percent_sweet_potato", "percent_oak", "feed_days",
   "temperature", "walk_distance_km", "stocking_density", "air_quality",
   "breed_Kurobuta", "breed_Iberian"]

/-- The prediction adapter `get_pig_prediction_v3` (app.py lines 28-60):
builds the ordered input row from the named arguments (with the two
derived breed indicator columns) and packages the model's 6 outputs.
The function is total: no input is rejected. -/
def get_pig_prediction_v3 (model : Model) (breed : String)
    (sweet_potato oak days temperature walk_distance density air_quality : ℚ) :
    Outcome :=
  let input_df : List ℚ :=
    (input_data breed sweet_potato oak days temperature walk_distance density
      air_quality).map Prod.snd
  let results := model input_df
  { predicted_imf := results 0
    predicted_sweetness := results 1
    predicted_aroma := results 2
    predicted_umami := results 3
    predicted_fat_quality := results 4
    predicted_ph_24h := results 5 }

/-- Errors a search can surface.  `keyError k` models Python's `KeyError`
raised by `TARGETS[k]`; `invalidTargetProfile` is the spec's eager
validation failure (no code path produces it); `valueError` models
`gp_minimize` rejecting a degenerate call. -/
inductive Err where
  | keyError : String → Err
  | invalidTargetProfile : Err
  | valueError : Err
deriving DecidableEq, Repr

/-- A Python dict from outcome names to numbers (the `TARGETS` /
`targets_dict` / `user_targets` values). -/
abbrev Dict : Type := List (String × ℚ)

/-- `TARGETS[k]`: dict subscript, raising `KeyError k` when absent. -/
def dictGet (t : Dict) (k : String) : Except Err ℚ :=
  match t.lookup k with
  | some v => .ok v
  | none => .error (.keyError k)

/-- Python's built-in `abs` on an exact value (executable form of
`|·|`). -/
def pyabs (q : ℚ) : ℚ := if q < 0 then -q else q

/-- The oracle call of `objective_function` (app.py lines 84-87) and of the
final re-query (lines 125-130): `get_pig_prediction_v3` applied to the
named fields of a structured configuration. -/
def predictOf (model : Model) (c : Config) : Outcome :=
  get_pig_prediction_v3 model c.breed c.sweet_potato c.oak (c.days : ℚ)
    c.temperature c.walk_distance c.density c.air_quality

/-- `objective_function` (app.py lines 80-99).  The configuration arrives
through `@use_named_args(space)` as named parameters; the target profile
is NOT a parameter: the code reads the module-global `TARGETS`
(line 78), threaded here as the explicit `TARGETS` argument.  The first
component counts oracle calls: the oracle is invoked (line 84) before
any `TARGETS[...]` subscript (lines 90-95), so one call is made even
when a key is missing.  Each error term mirrors one source line. -/
def objective_function (model : Model) (TARGETS : Dict) (c : Config) :
    ℕ × Except Err ℚ :=
  let prediction := predictOf model c
  (1,
    match dictGet TARGETS "imf" with
    | .error e => .error e
    | .ok t_imf =>
      let error_imf := pyabs (prediction.predicted_imf - t_imf) * 2.0
      match dictGet TARGETS "sweet" with
      | .error e => .error e
      | .ok t_sweet =>
        let error_sweet := pyabs (prediction.predicted_sweetness - t_sweet)
        match dictGet TARGETS "aroma" with
        | .error e => .error e
        | .ok t_aroma =>
          let error_aroma := pyabs (prediction.predicted_aroma - t_aroma)
          match dictGet TARGETS "umami" with
          | .error e => .error e
          | .ok t_umami =>
            let error_umami := pyabs (prediction.predicted_umami - t_umami) * 1.5
            match dictGet TARGETS "fat_q" with
            | .error e => .error e
            | .ok t_fat_q =>
              let error_fat_q := pyabs (prediction.predicted_fat_quality - t_fat_q)
              match dictGet TARGETS "ph" with
              | .error e => .error e
              | .ok t_ph =>
                let error_ph := pyabs (prediction.predicted_ph_24h - t_ph) * 1.5
                .ok (error_imf + error_sweet + error_aroma +
                     error_umami + error_fat_q + error_ph))

/-- The `user_targets` dict built by the UI (app.py lines 155-158):
exactly the 6 required keys. -/
def user_targets (imf sweet aroma umami fat_q ph : ℚ) : Dict :=
  [("imf", imf), ("sweet", sweet), ("aroma", aroma),
   ("umami", umami), ("fat_q", fat_q), ("ph", ph)]

/-- The spec's WeightTable (§3): imf 2.0, umami 1.5, ph 1.5, others 1.0.
Spec-side definition, used to state the refinement claim C1. -/
def WeightTable (n : String) : ℚ :=
  if n = "imf" then 2 else if n = "umami" then 1.5 else
  if n = "ph" then 1.5 else 1

/-- The 6 outcome names in the spec's order. -/
def outcomeNames : List String := ["imf", "sweet", "aroma", "umami", "fat_q", "ph"]

/-- The predicted value an `Outcome` holds for an outcome name. -/
def outcomeValue (o : Outcome) (n : String) : ℚ :=
  if n = "imf" then o.predicted_imf else
  if n = "sweet" then o.predicted_sweetness else
  if n = "aroma" then o.predicted_aroma else
  if n = "umami" then o.predicted_umami else
  if n = "fat_q" then o.predicted_fat_quality else o.predicted_ph_24h

/-- A total target profile as a function on the 6 outcome names.
Spec-side counterpart of `user_targets`. -/
def specTargets (imf sweet aroma umami fat_q ph : ℚ) (n : String) : ℚ :=
  if n = "imf" then imf else if n = "sweet" then sweet else
  if n = "aroma" then aroma else if n = "umami" then umami else
  if n = "fat_q" then fat_q else ph

/-- The spec's objective (§4.3), written as the spec words it: the sum
over the 6 outcome names of |predicted − target| × weight. -/
def specError (o : Outcome) (t : String → ℚ) : ℚ :=
  (outcomeNames.map (fun n => |outcomeValue o n - t n| * WeightTable n)).sum

/-- The module-global mutable state of `app.py` that the search core
touches: `TARGETS` (line 78, mutated at line 104) and `models_loaded`
(line 23). -/
structure GlobalState where
  TARGETS : Dict
  models_loaded : Bool
deriving DecidableEq, Repr

/-- `objective_function` as the running program sees it: the target
profile is read from the module-global state, not from a parameter
(app.py lines 78, 90-95, 103-104). -/
def objective_global (model : Model) (g : GlobalState) (c : Config) :
    ℕ × Except Err ℚ :=
  objective_function model g.TARGETS c

/-- The search-space dimension kinds of `skopt.space`
(app.py line 7: `Real`, `Integer`, `Categorical`). -/
inductive Dimension where
  | Categorical : List String → String → Dimension
  | Real : ℚ → ℚ → String → Dimension
  | Integer : ℤ → ℤ → String → Dimension
deriving DecidableEq, Repr

/-- The declared search space `space` (app.py lines 66-75), in source
order. -/
def space : List Dimension :=
  [.Categorical ["Kurobuta", "Iberian"] "breed",
   .Real 0.0 60.0 "sweet_potato",
   .Real 0.0 40.0 "oak",
   .Integer 120 221 "days",
   .Real 10.0 35.0 "temperature",
   .Real 0.1 2.5 "walk_distance",
   .Real 0.7 1.5 "density",
   .Real 1.0 10.0 "air_quality"]

/-- One slot of the flat vector the optimizer proposes. -/
inductive DimValue where
  | str : String → DimValue
  | rat : ℚ → DimValue
  | int : ℤ → DimValue
deriving DecidableEq, Repr

/-- Whether one slot value lies in one dimension's declared domain. -/
def dimOKb : Dimension → DimValue → Bool
  | .Categorical labels _, .str s => labels.contains s
  | .Real lo hi _, .rat q => decide (lo ≤ q) && decide (q ≤ hi)
  | .Integer lo hi _, .int z => decide (lo ≤ z) && decide (z ≤ hi)
  | _, _ => false

/-- The flat vector of a structured configuration, in `space` order. -/
def configVec (c : Config) : List DimValue :=
  [.str c.breed, .rat c.sweet_potato, .rat c.oak, .int c.days,
   .rat c.temperature, .rat c.walk_distance, .rat c.density,
   .rat c.air_quality]

/-- A configuration lies inside the declared search space. -/
def inSpace (c : Config) : Bool :=
  (space.zip (configVec c)).all (fun p => dimOKb p.1 p.2)

/-- Modelled from the spec: the pseudo-random number source of the
optimizer (spec §4.4 requires the run to be a deterministic function of
the seed; the concrete generator in `skopt` is not part of this
repository).  A linear congruential step. -/
def lcg (s : ℕ) : ℕ := (1103515245 * s + 12345) % 2147483648

/-- The i-th state of the generator started from `seed`. -/
def lcgStream (seed : ℕ) : ℕ → ℕ
  | 0 => lcg seed
  | n + 1 => lcg (lcgStream seed n)

/-- A draw mapped into the unit interval. -/
def unit01 (r : ℕ) : ℚ := ((r % 1000 : ℕ) : ℚ) / 999

/-- A draw mapped into the closed interval [lo, hi]. -/
def realIn (lo hi : ℚ) (r : ℕ) : ℚ := lo + unit01 r * (hi - lo)

/-- Modelled from the spec: the i-th candidate configuration the
optimizer proposes (spec §4.4 Initializing/Refining; every proposal
must respect the `space` bounds, spec §8 bound enforcement).  Uses
draws 8i..8i+7 of the generator, one per dimension of `space`. -/
def propose (seed i : ℕ) : Config :=
  let r := fun j => lcgStream seed (8 * i + j)
  { breed := if (r 0) % 2 = 0 then "Kurobuta" else "Iberian"
    sweet_potato := realIn 0.0 60.0 (r 1)
    oak := realIn 0.0 40.0 (r 2)
    days := 120 + ((r 3) % 102 : ℕ)
    temperature := realIn 10.0 35.0 (r 4)
    walk_distance := realIn 0.1 2.5 (r 5)
    density := realIn 0.7 1.5 (r 6)
    air_quality := realIn 1.0 10.0 (r 7) }

/-- Modelled from the spec: the sequence of evaluation points of one run
with budget `n_calls` (spec §4.4: exactly `n_calls` objective
evaluations). -/
def proposals (seed n_calls : ℕ) : List Config :=
  (List.range n_calls).map (propose seed)

/-- Modelled from the spec: the optimizer's evaluation loop.  Evaluates
the objective at each point in order, accumulating the oracle-call
count; a failing evaluation aborts the whole run at once (spec §4.4
failure semantics: no partial results). -/
def evalLoop (func : Config → ℕ × Except Err ℚ) :
    List Config → ℕ × Except Err (List (Config × ℚ))
  | [] => (0, .ok [])
  | c :: rest =>
    match func c with
    | (k, .error e) => (k, .error e)
    | (k, .ok v) =>
      match evalLoop func rest with
      | (k2, .error e) => (k + k2, .error e)
      | (k2, .ok obs) => (k + k2, .ok ((c, v) :: obs))

/-- The observation with minimum error; on ties the earliest one
(spec §4.4 output and tie-break policy). -/
def bestObs : List (Config × ℚ) → Option (Config × ℚ)
  | [] => none
  | o :: rest => some (rest.foldl (fun b x => if x.2 < b.2 then x else b) o)

/-- Modelled from the spec: `skopt.gp_minimize` (app.py line 6), the
sequential model-based optimizer, which is an external library and not
part of this repository.  Per spec §4.4 it is a deterministic function
of (objective, space, `n_calls`, seed) that issues exactly `n_calls`
objective evaluations at in-bounds points and returns the point of the
minimum observed error, earliest on ties; an objective failure aborts
the run.  The acquisition strategy is abstracted into the deterministic
proposal stream `proposals`. -/
def gp_minimize (func : Config → ℕ × Except Err ℚ) (n_calls : ℕ)
    (random_state : ℕ) : ℕ × Except Err Config :=
  match evalLoop func (proposals random_state n_calls) with
  | (k, .error e) => (k, .error e)
  | (k, .ok obs) =>
    match bestObs obs with
    | some b => (k, .ok b.1)
    | none => (k, .error .valueError)

/-- Python's `round(q, 2)` on an exact value: round to the nearest
multiple of 1/100, ties to the even hundredth (banker's rounding). -/
def roundHalfEven (q : ℚ) : ℤ :=
  let f := ⌊q⌋
  let r := q - f
  if r < 1 / 2 then f
  else if 1 / 2 < r then f + 1
  else if f % 2 = 0 then f else f + 1

/-- `round(x, 2)` (app.py lines 114-120). -/
def round2 (q : ℚ) : ℚ := (roundHalfEven (q * 100) : ℚ) / 100

/-- The `best_recipe` dict assembled from the optimizer's raw best
vector `result.x` (app.py lines 111-121): continuous fields rounded to
2 decimals, breed and feed days passed through. -/
def best_recipe_of (x : Config) : Config :=
  { breed := x.breed
    sweet_potato := round2 x.sweet_potato
    oak := round2 x.oak
    days := x.days
    temperature := round2 x.temperature
    walk_distance := round2 x.walk_distance
    density := round2 x.density
    air_quality := round2 x.air_quality }

/-- `find_best_recipe_v4_bayesian` (app.py lines 102-132): overwrite the
global `TARGETS` with the caller's dict (lines 103-104), run
`gp_minimize` over `space` with `random_state=42` (lines 106-109),
assemble the rounded `best_recipe` (lines 111-121), re-query the oracle
once on it (lines 125-130), and return the pair (line 132).  The first
component counts oracle calls; an objective failure mid-search
propagates (a Python exception aborts the call). -/
def find_best_recipe_v4_bayesian (model : Model) (g : GlobalState)
    (targets_dict : Dict) (n_calls : ℕ) : ℕ × Except Err (Config × Outcome) :=
  let g2 : GlobalState := { g with TARGETS := targets_dict }
  match gp_minimize (objective_global model g2) n_calls 42 with
  | (k, .error e) => (k, .error e)
  | (k, .ok x) =>
    let best_recipe := best_recipe_of x
    let best_prediction := predictOf model best_recipe
    (k + 1, .ok (best_recipe, best_prediction))

instance exceptDecEq {ε α : Type} [DecidableEq ε] [DecidableEq α] :
    DecidableEq (Except ε α) := fun a b =>
  match a, b with
  | .ok x, .ok y =>
    if h : x = y then isTrue (by rw [h])
    else isFalse (fun hh => h (Except.ok.inj hh))
  | .error x, .error y =>
    if h : x = y then isTrue (by rw [h])
    else isFalse (fun hh => h (Except.error.inj hh))
  | .ok _, .error _ => isFalse (fun hh => Except.noConfusion hh)
  | .error _, .ok _ => isFalse (fun hh => Except.noConfusion hh)

/-- A stub oracle that predicts 0 for every outcome (a deterministic
test Oracle in the sense of spec §8). -/
def stub0 : Model := fun _ _ => 0

/-- A stub oracle whose imf prediction is 1 and all others 0. -/
def stubA : Model := fun _ i => if i = 0 then 1 else 0

/-- `stubA` with the imf component changed by Δ = −2 (all other
components held fixed). -/
def stubB : Model := fun _ i => if i = 0 then -1 else 0

/-- `stubA` with the imf component changed by Δ = 1 (all other
components held fixed). -/
def stubC : Model := fun _ i => if i = 0 then 2 else 0

/-- The initial global state: `TARGETS = {}` (app.py line 78), model
loaded. -/
def g0t : GlobalState := { TARGETS := [], models_loaded := true }

/-- A concrete in-bounds configuration. -/
def cfg0 : Config :=
  { breed := "Kurobuta", sweet_potato := 30, oak := 20, days := 150,
    temperature := 20, walk_distance := 1, density := 1, air_quality := 5 }

/-- A target profile missing the required key `imf`. -/
def badTargets : Dict :=
  [("sweet", 8), ("aroma", 9), ("umami", 8), ("fat_q", 7), ("ph", 5.7)]

/-- The recipe returned by `find_best_recipe_v4_bayesian stub0 g0t
(user_targets 0 0 0 0 0 0) 1` (concrete witness data: the rounded first
proposal). -/
def recW : Config := best_recipe_of (propose 42 0)

/-- The prediction paired with `recW` by the same run. -/
def predW : Outcome := predictOf stub0 recW

/-- A column name is a breed indicator column. -/
def isBreedIndicator (s : String) : Bool :=
  s == "breed_Kurobuta" || s == "breed_Iberian"

theorem pyabs_eq_abs (q : ℚ) : pyabs q = |q| := by
  unfold pyabs
  split
  · rw [abs_of_neg]
    assumption
  · rw [abs_of_nonneg]
    exact le_of_not_lt (by assumption)

/-- C1: for every configuration and every target profile holding the
6 required keys, the objective returns exactly the weighted sum of
absolute differences of the spec, and that sum is a nonnegative
scalar. -/
theorem objective_is_weighted_abs_sum (model : Model) (c : Config) (t : Dict)
    (imf sweet aroma umami fat_q ph : ℚ)
    (h_imf : t.lookup "imf" = some imf)
    (h_sweet : t.lookup "sweet" = some sweet)
    (h_aroma : t.lookup "aroma" = some aroma)
    (h_umami : t.lookup "umami" = some umami)
    (h_fat : t.lookup "fat_q" = some fat_q)
    (h_ph : t.lookup "ph" = some ph) :
    objective_function model t c
      = (1, Except.ok (specError (predictOf model c)
          (specTargets imf sweet aroma umami fat_q ph)))
    ∧ 0 ≤ specError (predictOf model c)
        (specTargets imf sweet aroma umami fat_q ph) := by
  constructor
  · have h : objective_function model t c
        = (1, Except.ok
            (pyabs ((predictOf model c).predicted_imf - imf) * 2.0 +
             pyabs ((predictOf model c).predicted_sweetness - sweet) +
             pyabs ((predictOf model c).predicted_aroma - aroma) +
             pyabs ((predictOf model c).predicted_umami - umami) * 1.5 +
             pyabs ((predictOf model c).predicted_fat_quality - fat_q) +
             pyabs ((predictOf model c).predicted_ph_24h - ph) * 1.5)) := by
      simp only [objective_function, dictGet, h_imf, h_sweet, h_aroma, h_umami,
        h_fat, h_ph]
    rw [h]
    simp [specError, outcomeNames, outcomeValue, specTargets, WeightTable, pyabs_eq_abs]
    ring
  · simp only [specError, outcomeNames, List.map_cons, List.map_nil,
      List.sum_cons, List.sum_nil, add_zero]
    have w : ∀ n : String, 0 ≤ WeightTable n := by
      intro n
      unfold WeightTable
      split <;> norm_num
      split <;> norm_num
      split <;> norm_num
    have tm : ∀ n : String, 0 ≤ |outcomeValue (predictOf model c) n -
        specTargets imf sweet aroma umami fat_q ph n| * WeightTable n :=
      fun n => mul_nonneg (abs_nonneg _) (w n)
    have := tm "imf"
    have := tm "sweet"
    have := tm "aroma"
    have := tm "umami"
    have := tm "fat_q"
    have := tm "ph"
    linarith

/-- Witness for C1 at the UI default targets and a concrete
configuration. -/
theorem objective_is_weighted_abs_sum_witness :
    objective_function stub0 (user_targets 12 8 9 8 7 5.7) cfg0
      = (1, Except.ok (specError (predictOf stub0 cfg0)
          (specTargets 12 8 9 8 7 5.7)))
    ∧ 0 ≤ specError (predictOf stub0 cfg0) (specTargets 12 8 9 8 7 5.7) :=
  objective_is_weighted_abs_sum stub0 cfg0 (user_targets 12 8 9 8 7 5.7)
    12 8 9 8 7 5.7 rfl rfl rfl rfl rfl rfl

/-- With the constant-zero stub oracle and the all-zero target profile,
every objective evaluation returns error 0 after exactly one oracle
call. -/
theorem obj_stub0_zero (c : Config) :
    objective_function stub0 (user_targets 0 0 0 0 0 0) c = (1, Except.ok 0) := by
  have h : objective_function stub0 (user_targets 0 0 0 0 0 0) c
      = (1, Except.ok
          (pyabs ((0 : ℚ) - 0) * 2.0 + pyabs ((0 : ℚ) - 0) + pyabs ((0 : ℚ) - 0) +
           pyabs ((0 : ℚ) - 0) * 1.5 + pyabs ((0 : ℚ) - 0) + pyabs ((0 : ℚ) - 0) * 1.5)) := rfl
  rw [h]
  norm_num [pyabs]

/-- C2: whenever the search entry point returns a pair, the
`OutcomeVector` is exactly one additional oracle call on the returned
(rounded) `Configuration`, and every continuous field of that
configuration is an integer multiple of 1/100. -/
theorem returned_pair_consistent (model : Model) (g : GlobalState)
    (t : Dict) (n k : ℕ) (rec : Config) (pred : Outcome)
    (h : find_best_recipe_v4_bayesian model g t n = (k, Except.ok (rec, pred))) :
    pred = get_pig_prediction_v3 model rec.breed rec.sweet_potato rec.oak
      (rec.days : ℚ) rec.temperature rec.walk_distance rec.density rec.air_quality
    ∧ (∃ z : ℤ, rec.sweet_potato = (z : ℚ) / 100)
    ∧ (∃ z : ℤ, rec.oak = (z : ℚ) / 100)
    ∧ (∃ z : ℤ, rec.temperature = (z : ℚ) / 100)
    ∧ (∃ z : ℤ, rec.walk_distance = (z : ℚ) / 100)
    ∧ (∃ z : ℤ, rec.density = (z : ℚ) / 100)
    ∧ (∃ z : ℤ, rec.air_quality = (z : ℚ) / 100) := by
  rcases hg : gp_minimize (objective_global model { g with TARGETS := t }) n 42
    with ⟨k2, r⟩
  cases r with
  | error e =>
    exfalso
    simp only [find_best_recipe_v4_bayesian, hg] at h
    exact absurd (congrArg Prod.snd h) (by simp)
  | ok x =>
    simp only [find_best_recipe_v4_bayesian, hg, Prod.mk.injEq, Except.ok.injEq] at h
    obtain ⟨hk, hrec, hpred⟩ := h
    subst hrec
    refine ⟨hpred.symm, ⟨roundHalfEven (x.sweet_potato * 100), rfl⟩,
      ⟨roundHalfEven (x.oak * 100), rfl⟩,
      ⟨roundHalfEven (x.temperature * 100), rfl⟩,
      ⟨roundHalfEven (x.walk_distance * 100), rfl⟩,
      ⟨roundHalfEven (x.density * 100), rfl⟩,
      ⟨roundHalfEven (x.air_quality * 100), rfl⟩⟩

/-- Witness for C2: the consistency holds at a concrete run
(constant-zero stub oracle, all-zero targets, budget 1). -/
theorem returned_pair_consistent_witness :
    predW = get_pig_prediction_v3 stub0 recW.breed recW.sweet_potato recW.oak
      (recW.days : ℚ) recW.temperature recW.walk_distance recW.density recW.air_quality
    ∧ (∃ z : ℤ, recW.sweet_potato = (z : ℚ) / 100)
    ∧ (∃ z : ℤ, recW.oak = (z : ℚ) / 100)
    ∧ (∃ z : ℤ, recW.temperature = (z : ℚ) / 100)
    ∧ (∃ z : ℤ, recW.walk_distance = (z : ℚ) / 100)
    ∧ (∃ z : ℤ, recW.density = (z : ℚ) / 100)
    ∧ (∃ z : ℤ, recW.air_quality = (z : ℚ) / 100) :=
  returned_pair_consistent stub0 g0t (user_targets 0 0 0 0 0 0) 1 2 recW predW
    (by
      have hg : ∀ c : Config,
          objective_global stub0 { g0t with TARGETS := user_targets 0 0 0 0 0 0 } c
            = (1, Except.ok 0) := fun c => obj_stub0_zero c
      simp [find_best_recipe_v4_bayesian, gp_minimize, proposals, List.range_succ,
        evalLoop, hg, bestObs, recW, predW])

/-- C3: the search outcome is a deterministic function of the target
profile, the budget and the oracle: the random seed is fixed at 42
inside the entry point, and two runs from any two prior global states
return the same value. -/
theorem search_independent_of_prior_state (model : Model) (t : Dict)
    (n : ℕ) (g1 g2 : GlobalState) :
    find_best_recipe_v4_bayesian model g1 t n
      = find_best_recipe_v4_bayesian model g2 t n := rfl

/-- C4 counterexample: `objective_function` has no TargetProfile
parameter; it reads the module-global `TARGETS`.  Two calls with the
same configuration (and the same oracle) return different errors when
only the global state differs. -/
theorem objective_reads_global_targets_cex :
    objective_global stub0
        { TARGETS := user_targets 0 0 0 0 0 0, models_loaded := true } cfg0
      ≠ objective_global stub0
        { TARGETS := user_targets 1 0 0 0 0 0, models_loaded := true } cfg0 := by
  have h1 : objective_global stub0
      { TARGETS := user_targets 0 0 0 0 0 0, models_loaded := true } cfg0
      = (1, Except.ok 0) := obj_stub0_zero cfg0
  have h2 : objective_global stub0
      { TARGETS := user_targets 1 0 0 0 0 0, models_loaded := true } cfg0
      = (1, Except.ok 2) := by
    have h : objective_global stub0
        { TARGETS := user_targets 1 0 0 0 0 0, models_loaded := true } cfg0
        = (1, Except.ok
            (pyabs ((0 : ℚ) - 1) * 2.0 + pyabs ((0 : ℚ) - 0) + pyabs ((0 : ℚ) - 0) +
             pyabs ((0 : ℚ) - 0) * 1.5 + pyabs ((0 : ℚ) - 0) + pyabs ((0 : ℚ) - 0) * 1.5)) := rfl
    rw [h]
    norm_num [pyabs]
  rw [h1, h2]
  simp

/-- C4 amended: the objective's result is determined by the
configuration, the oracle and the current value of the global
`TARGETS`: two calls whose global states agree on `TARGETS` return
equal errors. -/
theorem objective_determined_by_global_targets (model : Model)
    (g1 g2 : GlobalState) (c : Config) (h : g1.TARGETS = g2.TARGETS) :
    objective_global model g1 c = objective_global model g2 c := by
  unfold objective_global
  rw [h]

/-- Witness for the amended C4: equal `TARGETS`, different remaining
global state, equal errors. -/
theorem objective_determined_by_global_targets_witness :
    objective_global stub0
        { TARGETS := user_targets 0 0 0 0 0 0, models_loaded := true } cfg0
      = objective_global stub0
        { TARGETS := user_targets 0 0 0 0 0 0, models_loaded := false } cfg0 :=
  objective_determined_by_global_targets stub0
    { TARGETS := user_targets 0 0 0 0 0 0, models_loaded := true }
    { TARGETS := user_targets 0 0 0 0 0 0, models_loaded := false } cfg0 rfl

/-- C5 counterexample: for the 2-category breed dimension the adapter
emits TWO indicator columns (`breed_Kurobuta` and `breed_Iberian`),
not exactly one: no baseline category is dropped. -/
theorem two_breed_indicator_columns_cex :
    model_columns.countP isBreedIndicator = 2
    ∧ ¬ model_columns.countP isBreedIndicator = 1
    ∧ ((input_data "Kurobuta" 0 0 0 0 0 0 0).countP
        (fun kv => isBreedIndicator kv.1)) = 2 := by
  refine ⟨rfl, ?_, rfl⟩
  intro h
  simp [model_columns, isBreedIndicator, List.countP, List.countP.go] at h

/-- C5 amended: the adapter emits one binary indicator per category with
no omitted baseline: both columns are always present, each set to 1
exactly when the breed equals its label. -/
theorem breed_indicators_no_baseline (breed : String)
    (sp oak days temp walk dens air : ℚ) :
    (input_data breed sp oak days temp walk dens air).lookup "breed_Kurobuta"
      = some (if breed = "Kurobuta" then 1 else 0)
    ∧ (input_data breed sp oak days temp walk dens air).lookup "breed_Iberian"
      = some (if breed = "Iberian" then 1 else 0)
    ∧ (input_data breed sp oak days temp walk dens air).countP
        (fun kv => isBreedIndicator kv.1) = 2 :=
  ⟨rfl, rfl, rfl⟩

/-- C6 counterexample: with a target profile missing `imf`, the search
is not rejected before an oracle call: the oracle-call count is nonzero
and the failure is a `KeyError`, not `InvalidTargetProfile`. -/
theorem no_validation_before_oracle_cex :
    (find_best_recipe_v4_bayesian stub0 g0t badTargets 5).1 ≠ 0
    ∧ (find_best_recipe_v4_bayesian stub0 g0t badTargets 5).2
        ≠ Except.error Err.invalidTargetProfile := by
  have hbad : ∀ c : Config,
      objective_global stub0 { g0t with TARGETS := badTargets } c
        = (1, Except.error (Err.keyError "imf")) := fun c => rfl
  have hfind : find_best_recipe_v4_bayesian stub0 g0t badTargets 5
      = (1, Except.error (Err.keyError "imf")) := by
    simp [find_best_recipe_v4_bayesian, gp_minimize, proposals, List.range_succ,
      evalLoop, hbad]
  rw [hfind]
  simp

/-- C6 amended: no validation is performed; for any target profile
missing the key `imf` and any positive budget, the first objective
evaluation makes one oracle call and then aborts the whole search with
`KeyError "imf"`. -/
theorem missing_imf_aborts_after_oracle_call (model : Model) (g : GlobalState)
    (t : Dict) (n : ℕ) (hmiss : t.lookup "imf" = none) (hn : 1 ≤ n) :
    find_best_recipe_v4_bayesian model g t n
      = (1, Except.error (Err.keyError "imf")) := by
  obtain ⟨m, rfl⟩ : ∃ m, n = m + 1 := ⟨n - 1, by omega⟩
  have hobj : ∀ c : Config, objective_global model { g with TARGETS := t } c
      = (1, Except.error (Err.keyError "imf")) := by
    intro c
    simp [objective_global, objective_function, dictGet, hmiss]
  have hprop : proposals 42 (m + 1)
      = propose 42 0 :: (List.range m).map (propose 42 ∘ Nat.succ) := by
    simp [proposals, List.range_succ_eq_map]
  have heval : evalLoop (objective_global model { g with TARGETS := t })
      (proposals 42 (m + 1)) = (1, Except.error (Err.keyError "imf")) := by
    rw [hprop]
    simp [evalLoop, hobj]
  simp [find_best_recipe_v4_bayesian, gp_minimize, heval]

/-- Witness for the amended C6: a concrete run with a 5-key profile and
budget 5 makes one oracle call and fails with `KeyError "imf"`. -/
theorem missing_imf_aborts_after_oracle_call_witness :
    badTargets.lookup "imf" = none ∧ 1 ≤ 5 ∧
    find_best_recipe_v4_bayesian stub0 g0t badTargets 5
      = (1, Except.error (Err.keyError "imf")) :=
  ⟨rfl, by norm_num,
    missing_imf_aborts_after_oracle_call stub0 g0t badTargets 5 rfl (by norm_num)⟩

/-- C7 counterexample: changing only the stub oracle's imf output by
Δ = −2 (from 1 to −1, targets all 0) leaves the total error unchanged
(2 before, 2 after), while 2.0 × Δ = −4 ≠ 0. -/
theorem imf_delta_not_always_linear_cex :
    (objective_function stubA (user_targets 0 0 0 0 0 0) cfg0).2 = Except.ok 2
    ∧ (objective_function stubB (user_targets 0 0 0 0 0 0) cfg0).2 = Except.ok 2
    ∧ (predictOf stubB cfg0).predicted_imf
        = (predictOf stubA cfg0).predicted_imf + (-2)
    ∧ (predictOf stubB cfg0).predicted_sweetness
        = (predictOf stubA cfg0).predicted_sweetness
    ∧ (predictOf stubB cfg0).predicted_aroma
        = (predictOf stubA cfg0).predicted_aroma
    ∧ (predictOf stubB cfg0).predicted_umami
        = (predictOf stubA cfg0).predicted_umami
    ∧ (predictOf stubB cfg0).predicted_fat_quality
        = (predictOf stubA cfg0).predicted_fat_quality
    ∧ (predictOf stubB cfg0).predicted_ph_24h
        = (predictOf stubA cfg0).predicted_ph_24h
    ∧ ((2 : ℚ) - 2 ≠ 2.0 * (-2)) := by
  refine ⟨?_, ?_, ?_, ?_, ?_, ?_, ?_, ?_, by norm_num⟩
  · have h : (objective_function stubA (user_targets 0 0 0 0 0 0) cfg0).2
        = Except.ok (pyabs ((1 : ℚ) - 0) * 2.0 + pyabs ((0 : ℚ) - 0) +
            pyabs ((0 : ℚ) - 0) + pyabs ((0 : ℚ) - 0) * 1.5 +
            pyabs ((0 : ℚ) - 0) + pyabs ((0 : ℚ) - 0) * 1.5) := rfl
    rw [h]
    norm_num [pyabs]
  · have h : (objective_function stubB (user_targets 0 0 0 0 0 0) cfg0).2
        = Except.ok (pyabs ((-1 : ℚ) - 0) * 2.0 + pyabs ((0 : ℚ) - 0) +
            pyabs ((0 : ℚ) - 0) + pyabs ((0 : ℚ) - 0) * 1.5 +
            pyabs ((0 : ℚ) - 0) + pyabs ((0 : ℚ) - 0) * 1.5) := rfl
    rw [h]
    norm_num [pyabs]
  · norm_num [predictOf, get_pig_prediction_v3, stubA, stubB]
  · decide
  · decide
  · decide
  · decide
  · decide

/-- C7 amended: if only the imf component of the oracle output changes
by d and both the original and the perturbed imf predictions lie on or
above the imf target, the total error changes by exactly 2.0 × d. -/
theorem imf_delta_same_side_linear (model1 model2 : Model) (c : Config)
    (imf sweet aroma umami fat_q ph d : ℚ)
    (h1 : (predictOf model2 c).predicted_imf
        = (predictOf model1 c).predicted_imf + d)
    (h2 : (predictOf model2 c).predicted_sweetness
        = (predictOf model1 c).predicted_sweetness)
    (h3 : (predictOf model2 c).predicted_aroma
        = (predictOf model1 c).predicted_aroma)
    (h4 : (predictOf model2 c).predicted_umami
        = (predictOf model1 c).predicted_umami)
    (h5 : (predictOf model2 c).predicted_fat_quality
        = (predictOf model1 c).predicted_fat_quality)
    (h6 : (predictOf model2 c).predicted_ph_24h
        = (predictOf model1 c).predicted_ph_24h)
    (hs1 : imf ≤ (predictOf model1 c).predicted_imf)
    (hs2 : imf ≤ (predictOf model1 c).predicted_imf + d) :
    ∃ e : ℚ,
      (objective_function model1 (user_targets imf sweet aroma umami fat_q ph) c).2
        = Except.ok e
      ∧ (objective_function model2 (user_targets imf sweet aroma umami fat_q ph) c).2
        = Except.ok (e + 2.0 * d) := by
  have hA : (objective_function model1 (user_targets imf sweet aroma umami fat_q ph) c).2
      = Except.ok (pyabs ((predictOf model1 c).predicted_imf - imf) * 2.0 +
          pyabs ((predictOf model1 c).predicted_sweetness - sweet) +
          pyabs ((predictOf model1 c).predicted_aroma - aroma) +
          pyabs ((predictOf model1 c).predicted_umami - umami) * 1.5 +
          pyabs ((predictOf model1 c).predicted_fat_quality - fat_q) +
          pyabs ((predictOf model1 c).predicted_ph_24h - ph) * 1.5) := rfl
  have hB : (objective_function model2 (user_targets imf sweet aroma umami fat_q ph) c).2
      = Except.ok (pyabs ((predictOf model2 c).predicted_imf - imf) * 2.0 +
          pyabs ((predictOf model2 c).predicted_sweetness - sweet) +
          pyabs ((predictOf model2 c).predicted_aroma - aroma) +
          pyabs ((predictOf model2 c).predicted_umami - umami) * 1.5 +
          pyabs ((predictOf model2 c).predicted_fat_quality - fat_q) +
          pyabs ((predictOf model2 c).predicted_ph_24h - ph) * 1.5) := rfl
  refine ⟨_, hA, ?_⟩
  rw [hB, h1, h2, h3, h4, h5, h6]
  have e1 : pyabs ((predictOf model1 c).predicted_imf + d - imf)
      = (predictOf model1 c).predicted_imf + d - imf := by
    rw [pyabs_eq_abs]
    exact abs_of_nonneg (by linarith)
  have e2 : pyabs ((predictOf model1 c).predicted_imf - imf)
      = (predictOf model1 c).predicted_imf - imf := by
    rw [pyabs_eq_abs]
    exact abs_of_nonneg (by linarith)
  rw [e1, e2]
  exact congrArg Except.ok (by ring)

/-- Witness for the amended C7: stub oracles with imf 1 and 2 (d = 1),
all-zero targets: the error grows by exactly 2. -/
theorem imf_delta_same_side_linear_witness :
    ∃ e : ℚ,
      (objective_function stubA (user_targets 0 0 0 0 0 0) cfg0).2 = Except.ok e
      ∧ (objective_function stubC (user_targets 0 0 0 0 0 0) cfg0).2
        = Except.ok (e + 2.0 * 1) :=
  imf_delta_same_side_linear stubA stubC cfg0 0 0 0 0 0 0 1
    (by norm_num [predictOf, get_pig_prediction_v3, stubA, stubC])
    (by decide)
    (by decide)
    (by decide)
    (by decide)
    (by decide)
    (by norm_num [predictOf, get_pig_prediction_v3, stubA])
    (by norm_num [predictOf, get_pig_prediction_v3, stubA])

theorem unit01_nonneg (r : ℕ) : 0 ≤ unit01 r := by
  unfold unit01
  positivity

theorem unit01_le_one (r : ℕ) : unit01 r ≤ 1 := by
  unfold unit01
  rw [div_le_one (by norm_num)]
  have h : r % 1000 ≤ 999 := Nat.lt_succ_iff.mp (Nat.mod_lt _ (by norm_num))
  exact_mod_cast h

theorem realIn_mem (lo hi : ℚ) (r : ℕ) (h : lo ≤ hi) :
    lo ≤ realIn lo hi r ∧ realIn lo hi r ≤ hi := by
  unfold realIn
  constructor
  · have := mul_nonneg (unit01_nonneg r) (sub_nonneg.mpr h)
    linarith
  · have := mul_le_of_le_one_left (sub_nonneg.mpr h) (unit01_le_one r)
    linarith

/-- C8: every configuration the optimizer issues for evaluation (the
proposal stream of a run of any length) lies inside the declared
`space` bounds. -/
theorem optimizer_proposals_in_bounds (seed n : ℕ) (c : Config)
    (hc : c ∈ proposals seed n) : inSpace c = true := by
  obtain ⟨i, hi, rfl⟩ := List.mem_map.mp hc
  simp only [inSpace, space, configVec, propose, List.zip, List.zipWith,
    List.all_cons, List.all_nil, dimOKb, Bool.and_eq_true, decide_eq_true_iff,
    Bool.and_true]
  have hmod : lcgStream seed (8 * i + 3) % 102 ≤ 101 :=
    Nat.lt_succ_iff.mp (Nat.mod_lt _ (by norm_num))
  refine ⟨?_, ?_, ?_, ?_, ?_, ?_, ?_, ?_⟩
  · split <;> simp [List.contains]
  · exact ⟨(realIn_mem 0.0 60.0 _ (by norm_num)).1,
      (realIn_mem 0.0 60.0 _ (by norm_num)).2⟩
  · exact ⟨(realIn_mem 0.0 40.0 _ (by norm_num)).1,
      (realIn_mem 0.0 40.0 _ (by norm_num)).2⟩
  · constructor
    · omega
    · have : ((lcgStream seed (8 * i + 3) % 102 : ℕ) : ℤ) ≤ 101 := by
        exact_mod_cast hmod
      omega
  · exact ⟨(realIn_mem 10.0 35.0 _ (by norm_num)).1,
      (realIn_mem 10.0 35.0 _ (by norm_num)).2⟩
  · exact ⟨(realIn_mem 0.1 2.5 _ (by norm_num)).1,
      (realIn_mem 0.1 2.5 _ (by norm_num)).2⟩
  · exact ⟨(realIn_mem 0.7 1.5 _ (by norm_num)).1,
      (realIn_mem 0.7 1.5 _ (by norm_num)).2⟩
  · exact ⟨(realIn_mem 1.0 10.0 _ (by norm_num)).1,
      (realIn_mem 1.0 10.0 _ (by norm_num)).2⟩

/-- Witness for C8: the first proposal of the seed-42 run of length 1 is
an issued evaluation point and lies in bounds. -/
theorem optimizer_proposals_in_bounds_witness :
    propose 42 0 ∈ proposals 42 1 ∧ inSpace (propose 42 0) = true :=
  ⟨by simp [proposals, List.range_succ],
    optimizer_proposals_in_bounds 42 1 (propose 42 0)
      (by simp [proposals, List.range_succ])⟩

/-- C9 counterexample: two runs performing different numbers of
evaluations (budgets 2 and 3; instrumented oracle-call counts 3 and 4)
return the exact same value, so the value handed to the caller contains
no record of the number of evaluations performed (nor of elapsed
time). -/
theorem result_omits_eval_count_cex :
    (find_best_recipe_v4_bayesian stub0 g0t (user_targets 0 0 0 0 0 0) 2).2
      = (find_best_recipe_v4_bayesian stub0 g0t (user_targets 0 0 0 0 0 0) 3).2
    ∧ (find_best_recipe_v4_bayesian stub0 g0t (user_targets 0 0 0 0 0 0) 2).1
      ≠ (find_best_recipe_v4_bayesian stub0 g0t (user_targets 0 0 0 0 0 0) 3).1 := by
  have hg : ∀ c : Config,
      objective_global stub0 { g0t with TARGETS := user_targets 0 0 0 0 0 0 } c
        = (1, Except.ok 0) := fun c => obj_stub0_zero c
  have h2 : find_best_recipe_v4_bayesian stub0 g0t (user_targets 0 0 0 0 0 0) 2
      = (3, Except.ok (best_recipe_of (propose 42 0),
          predictOf stub0 (best_recipe_of (propose 42 0)))) := by
    simp [find_best_recipe_v4_bayesian, gp_minimize, proposals, List.range_succ,
      evalLoop, hg, bestObs, lt_irrefl]
  have h3 : find_best_recipe_v4_bayesian stub0 g0t (user_targets 0 0 0 0 0 0) 3
      = (4, Except.ok (best_recipe_of (propose 42 0),
          predictOf stub0 (best_recipe_of (propose 42 0)))) := by
    simp [find_best_recipe_v4_bayesian, gp_minimize, proposals, List.range_succ,
      evalLoop, hg, bestObs, lt_irrefl]
  rw [h2, h3]
  simp

/-- C9 amended: the entry point hands the caller only the pair (rounded
best Configuration, its re-queried OutcomeVector); no evaluation count
and no elapsed time are part of the returned value. -/
theorem entry_point_returns_pair_only (model : Model) (g : GlobalState)
    (t : Dict) (n : ℕ) :
    (find_best_recipe_v4_bayesian model g t n).2
      = (gp_minimize (objective_function model t) n 42).2.map
          (fun x => (best_recipe_of x, predictOf model (best_recipe_of x))) := by
  rcases hg : gp_minimize (objective_function model t) n 42 with ⟨k, r⟩
  have hsame : gp_minimize (objective_global model { g with TARGETS := t }) n 42
      = (k, r) := hg
  cases r with
  | error e => simp [find_best_recipe_v4_bayesian, hsame, Except.map]
  | ok x => simp [find_best_recipe_v4_bayesian, hsame, Except.map]

/-- C10: an out-of-set breed label is never rejected: both indicator
inputs are silently set to 0, the oracle is still queried, and any two
unknown labels give the same input row, hence the same prediction. -/
theorem unknown_breed_silently_zeroed (model : Model)
    (sp oak days temp walk dens air : ℚ) (b1 b2 : String)
    (h1 : b1 ≠ "Kurobuta") (h2 : b1 ≠ "Iberian")
    (h3 : b2 ≠ "Kurobuta") (h4 : b2 ≠ "Iberian") :
    (input_data b1 sp oak days temp walk dens air).lookup "breed_Kurobuta"
      = some 0
    ∧ (input_data b1 sp oak days temp walk dens air).lookup "breed_Iberian"
      = some 0
    ∧ get_pig_prediction_v3 model b1 sp oak days temp walk dens air
        = get_pig_prediction_v3 model b2 sp oak days temp walk dens air := by
  have hrow : input_data b1 sp oak days temp walk dens air
      = input_data b2 sp oak days temp walk dens air := by
    simp [input_data, h1, h2, h3, h4]
  refine ⟨?_, ?_, ?_⟩
  · simp [input_data, List.lookup, h1]
  · simp [input_data, List.lookup, h2]
  · unfold get_pig_prediction_v3
    rw [hrow]

/-- Witness for C10: two concrete unknown labels. -/
theorem unknown_breed_silently_zeroed_witness :
    (input_data "Duroc" 0 0 0 0 0 0 0).lookup "breed_Kurobuta" = some 0
    ∧ (input_data "Duroc" 0 0 0 0 0 0 0).lookup "breed_Iberian" = some 0
    ∧ get_pig_prediction_v3 stub0 "Duroc" 0 0 0 0 0 0 0
        = get_pig_prediction_v3 stub0 "Berkshire" 0 0 0 0 0 0 0 :=
  unknown_breed_silently_zeroed stub0 0 0 0 0 0 0 0 "Duroc" "Berkshire"
    (by decide) (by decide) (by decide) (by decide)
